import Mathlib

/-!
Shallow embedding of the annotation-rendering core of RealityFixer
(src/components/AnnotationCanvas.tsx) and of the response sanitization in
analyzeImage (src/services/geminiService.ts).

The render pass is modelled as a pure function from the inputs
(annotations, width, height, and a text-measuring oracle standing for
ctx.measureText) to the list of drawing calls issued on the canvas
context, in order.  Normalized and pixel coordinates are rationals; the
arrowhead triangle vertices, which the source computes with
Math.atan2 / Math.cos / Math.sin, are real numbers.
-/

/-- The `Annotation` interface from src/types.ts.  `type` is a string tag
(the renderer compares it against string literals); the shape-specific
fields are optional, and the coordinate arrays are plain lists whose
lengths the renderer checks at run time. -/
structure Annotation where
  type : String
  start : Option (List ℚ) := none
  «end» : Option (List ℚ) := none
  center : Option (List ℚ) := none
  radius : Option ℚ := none
  box_2d : Option (List ℚ) := none
  label : String := ""

/-- One drawing call issued on the canvas 2d context.  Rectangle, circle,
line and text calls carry rational pixel coordinates; the filled arrowhead
triangle carries its three real vertices (the source computes them with
trigonometry). -/
inductive DrawOp where
  | clearRect (x y w h : ℚ)
  | strokeRect (x y w h : ℚ) (color : String)
  | fillRect (x y w h : ℚ) (color : String)
  | strokeCircle (cx cy r : ℚ) (color : String)
  | strokeLine (x1 y1 x2 y2 : ℚ) (color : String)
  | fillTriangle (p1 p2 p3 : ℝ × ℝ) (color : String)
  | fillText (text : String) (x y : ℚ) (color : String)

/-- The coordinate mapping of the render pass: the source computes
`scaleX = width / 1000`, `scaleY = height / 1000` and multiplies each
normalized coordinate by the scale factor of its axis
(AnnotationCanvas.tsx lines 22-24). -/
def toPixel (c E : ℚ) : ℚ :=
  c * (E / 1000)

/-- Color selection of AnnotationCanvas.tsx lines 36-41: start from blue
and reassign by successive `if` statements on the type tag. -/
def annColor (t : String) : String :=
  let c := "#3b82f6"
  let c := if t = "circle" then "#ef4444" else c
  let c := if t = "arrow" then "#eab308" else c
  let c := if t = "box" then "#22c55e" else c
  let c := if t = "highlight" then "#f97316" else c
  c

/-- `drawLabel` of AnnotationCanvas.tsx lines 95-104: a dark backing
rectangle of height 24 sized from the measured text width plus padding 6
on each side, then the text in the annotation color.  `measure` stands
for `ctx.measureText(text).width`. -/
def drawLabel (measure : String → ℚ) (text : String) (x y : ℚ)
    (color : String) : List DrawOp :=
  let padding : ℚ := 6
  let textWidth := measure text
  [DrawOp.fillRect (x - padding) (y - 14 - padding) (textWidth + padding * 2)
      24 "rgba(0,0,0,0.8)",
    DrawOp.fillText text x y color]

open Real in
/-- JavaScript `Math.atan2(y, x)` on non-NaN inputs. -/
noncomputable def atan2 (y x : ℝ) : ℝ :=
  if 0 < x then arctan (y / x)
  else if x < 0 then
    (if 0 ≤ y then arctan (y / x) + π else arctan (y / x) - π)
  else if 0 < y then π / 2
  else if y < 0 then -(π / 2)
  else 0

/-- `drawArrow` of AnnotationCanvas.tsx lines 106-122: a stroked line from
(x1,y1) to (x2,y2), then a filled triangle with vertices the end point and
the two wing points obtained by stepping back 15 units from the end at
angles `angle ± π/6`, where `angle = atan2(y2-y1, x2-x1)`. -/
noncomputable def drawArrow (x1 y1 x2 y2 : ℚ) (color : String) :
    List DrawOp :=
  let headLength : ℝ := 15
  let angle := atan2 ((y2 : ℝ) - (y1 : ℝ)) ((x2 : ℝ) - (x1 : ℝ))
  [DrawOp.strokeLine x1 y1 x2 y2 color,
    DrawOp.fillTriangle ((x2 : ℝ), (y2 : ℝ))
      ((x2 : ℝ) - headLength * Real.cos (angle - Real.pi / 6),
        (y2 : ℝ) - headLength * Real.sin (angle - Real.pi / 6))
      ((x2 : ℝ) - headLength * Real.cos (angle + Real.pi / 6),
        (y2 : ℝ) - headLength * Real.sin (angle + Real.pi / 6))
      color]

/-- The per-annotation body of the `annotations.forEach` loop of
AnnotationCanvas.tsx lines 35-91: dispatch on the type tag, check the
variant coordinate field and its length, and issue the shape calls
followed by the label calls; on any failed check issue nothing. -/
noncomputable def drawAnn (measure : String → ℚ) (width height : ℚ)
    (ann : Annotation) : List DrawOp :=
  let scaleX := width / 1000
  let scaleY := height / 1000
  let color := annColor ann.type
  if ann.type = "box" ∨ ann.type = "highlight" then
    match ann.box_2d with
    | some l =>
      if h : l.length = 4 then
        let ymin := l[0]
        let xmin := l[1]
        let ymax := l[2]
        let xmax := l[3]
        let y := ymin * scaleY
        let x := xmin * scaleX
        let hh := (ymax - ymin) * scaleY
        let w := (xmax - xmin) * scaleX
        (if ann.type = "highlight" then
          [DrawOp.fillRect x y w hh (color ++ "40"),
            DrawOp.strokeRect x y w hh color]
        else
          [DrawOp.strokeRect x y w hh color])
          ++ drawLabel measure ann.label x (y - 10) color
      else []
    | none => []
  else if ann.type = "circle" then
    match ann.center with
    | some l =>
      if h : l.length = 2 then
        let cx := l[0] * scaleX
        let cy := l[1] * scaleY
        let r := (match ann.radius with
          | some rv => if rv = 0 then 50 else rv
          | none => 50) * scaleX
        [DrawOp.strokeCircle cx cy r color]
          ++ drawLabel measure ann.label (cx - 20) (cy - r - 10) color
      else []
    | none => []
  else if ann.type = "arrow" then
    match ann.start, ann.«end» with
    | some ls, some le =>
      if h : ls.length = 2 ∧ le.length = 2 then
        let x1 := ls[0] * scaleX
        let y1 := ls[1] * scaleY
        let x2 := le[0] * scaleX
        let y2 := le[1] * scaleY
        drawArrow x1 y1 x2 y2 color
          ++ drawLabel measure ann.label x1 (y1 - 20) color
      else []
    | _, _ => []
  else []

/-- An annotation passes the renderer's per-variant checks: its type tag
is one of the four known tags and the variant's required coordinate field
is present with the required length. -/
def wellFormed (ann : Annotation) : Bool :=
  if ann.type = "box" ∨ ann.type = "highlight" then
    match ann.box_2d with
    | some l => l.length = 4
    | none => false
  else if ann.type = "circle" then
    match ann.center with
    | some l => l.length = 2
    | none => false
  else if ann.type = "arrow" then
    (match ann.start with
      | some l => l.length = 2
      | none => false)
      && (match ann.«end» with
        | some l => l.length = 2
        | none => false)
  else false

/-- The full render pass of the effect in AnnotationCanvas.tsx lines
13-92: clear the whole surface, then — if the annotation list is present
and is an array (`none` models absent / not-an-array) — draw every
annotation in array order. -/
noncomputable def passOps (measure : String → ℚ)
    (annotations : Option (List Annotation)) (width height : ℚ) :
    List DrawOp :=
  DrawOp.clearRect 0 0 width height ::
    (match annotations with
    | some l => (l.map (drawAnn measure width height)).flatten
    | none => [])

/-- Running the render pass over a drawing surface: apply the issued
drawing calls in order, starting from the surface's current state. -/
noncomputable def renderPass {Surface : Type}
    (paint : Surface → DrawOp → Surface) (measure : String → ℚ)
    (annotations : Option (List Annotation)) (width height : ℚ)
    (s : Surface) : Surface :=
  (passOps measure annotations width height).foldl paint s

/-! ### Reduction lemmas for the per-annotation dispatch -/

lemma annColor_box : annColor "box" = "#22c55e" := rfl

lemma annColor_highlight : annColor "highlight" = "#f97316" := rfl

lemma annColor_circle : annColor "circle" = "#ef4444" := rfl

lemma annColor_arrow : annColor "arrow" = "#eab308" := rfl

lemma drawAnn_box_eq (m : String → ℚ) (w h : ℚ) (ann : Annotation)
    (ymin xmin ymax xmax : ℚ) (hty : ann.type = "box")
    (hb : ann.box_2d = some [ymin, xmin, ymax, xmax]) :
    drawAnn m w h ann =
      DrawOp.strokeRect (xmin * (w / 1000)) (ymin * (h / 1000))
          ((xmax - xmin) * (w / 1000)) ((ymax - ymin) * (h / 1000)) "#22c55e" ::
        drawLabel m ann.label (xmin * (w / 1000)) (ymin * (h / 1000) - 10)
          "#22c55e" := by
  simp [drawAnn, hty, hb, annColor]

lemma drawAnn_highlight_eq (m : String → ℚ) (w h : ℚ) (ann : Annotation)
    (ymin xmin ymax xmax : ℚ) (hty : ann.type = "highlight")
    (hb : ann.box_2d = some [ymin, xmin, ymax, xmax]) :
    drawAnn m w h ann =
      DrawOp.fillRect (xmin * (w / 1000)) (ymin * (h / 1000))
          ((xmax - xmin) * (w / 1000)) ((ymax - ymin) * (h / 1000))
          ("#f97316" ++ "40") ::
        DrawOp.strokeRect (xmin * (w / 1000)) (ymin * (h / 1000))
          ((xmax - xmin) * (w / 1000)) ((ymax - ymin) * (h / 1000)) "#f97316" ::
        drawLabel m ann.label (xmin * (w / 1000)) (ymin * (h / 1000) - 10)
          "#f97316" := by
  simp [drawAnn, hty, hb, annColor]

lemma drawAnn_circle_eq (m : String → ℚ) (w h : ℚ) (ann : Annotation)
    (c0 c1 : ℚ) (hty : ann.type = "circle") (hc : ann.center = some [c0, c1]) :
    drawAnn m w h ann =
      DrawOp.strokeCircle (c0 * (w / 1000)) (c1 * (h / 1000))
          ((match ann.radius with
            | some rv => if rv = 0 then 50 else rv
            | none => 50) * (w / 1000)) "#ef4444" ::
        drawLabel m ann.label (c0 * (w / 1000) - 20)
          (c1 * (h / 1000) -
            (match ann.radius with
              | some rv => if rv = 0 then 50 else rv
              | none => 50) * (w / 1000) - 10) "#ef4444" := by
  simp [drawAnn, hty, hc, annColor]

lemma drawAnn_arrow_eq (m : String → ℚ) (w h : ℚ) (ann : Annotation)
    (sx sy ex ey : ℚ) (hty : ann.type = "arrow")
    (hs : ann.start = some [sx, sy]) (he : ann.«end» = some [ex, ey]) :
    drawAnn m w h ann =
      drawArrow (sx * (w / 1000)) (sy * (h / 1000)) (ex * (w / 1000))
          (ey * (h / 1000)) "#eab308" ++
        drawLabel m ann.label (sx * (w / 1000)) (sy * (h / 1000) - 20)
          "#eab308" := by
  simp [drawAnn, hty, hs, he, annColor]

lemma drawAnn_nil (m : String → ℚ) (w h : ℚ) (ann : Annotation)
    (hwf : wellFormed ann = false) : drawAnn m w h ann = [] := by
  by_cases hbh : ann.type = "box" ∨ ann.type = "highlight"
  · rcases hb : ann.box_2d with _ | l
    · simp [drawAnn, hbh, hb]
    · simp only [wellFormed, if_pos hbh, hb, decide_eq_false_iff_not] at hwf
      simp [drawAnn, hbh, hb, hwf]
  · by_cases hc : ann.type = "circle"
    · rcases hcen : ann.center with _ | l
      · simp [drawAnn, hbh, hc, hcen]
      · simp only [wellFormed, if_neg hbh, if_pos hc, hcen,
          decide_eq_false_iff_not] at hwf
        simp [drawAnn, hbh, hc, hcen, hwf]
    · by_cases ha : ann.type = "arrow"
      · rcases hs : ann.start with _ | ls <;> rcases he : ann.«end» with _ | le
        · simp [drawAnn, hbh, hc, ha, hs, he]
        · simp [drawAnn, hbh, hc, ha, hs, he]
        · simp [drawAnn, hbh, hc, ha, hs, he]
        · simp only [wellFormed, if_neg hbh, if_neg hc, if_pos ha, hs, he,
            Bool.and_eq_false_iff, decide_eq_false_iff_not] at hwf
          have hne : ¬(ls.length = 2 ∧ le.length = 2) := by tauto
          simp [drawAnn, hbh, hc, ha, hs, he, hne]
      · simp [drawAnn, hbh, hc, ha]

/-- C1: the coordinate mapping of the render pass satisfies
`toPixel c E = c * E / 1000`, is exactly proportional in `c`, maps 0 to 0
and 1000 to the full extent `E`; the identity holds for every rational
`c`, also outside [0,1000] — no clamping is applied. -/
theorem toPixel_correct (c E : ℚ) (hE : 0 < E) :
    toPixel c E = c * E / 1000 ∧ toPixel 0 E = 0 ∧ toPixel 1000 E = E ∧
      (∀ a : ℚ, toPixel (a * c) E = a * toPixel c E) ∧
      ∀ x : ℚ, x * (E / 1000) = toPixel x E := by
  refine ⟨by unfold toPixel; ring, by unfold toPixel; ring, ?_, ?_, ?_⟩
  · unfold toPixel
    field_simp
  · intro a
    unfold toPixel
    ring
  · intro x
    rfl

theorem toPixel_correct_witness :
    toPixel 1000 640 = 640 ∧ toPixel (3 * 7) 640 = 3 * toPixel 7 640 :=
  ⟨(toPixel_correct 7 640 (by norm_num)).2.2.1,
    (toPixel_correct 7 640 (by norm_num)).2.2.2.1 3⟩

/-- The box annotation of claim C3: `box_2d = [100, 200, 300, 400]`. -/
def boxAnn100 : Annotation :=
  { type := "box", box_2d := some [100, 200, 300, 400] }

/-- A text-measuring oracle reporting width 0 for every string. -/
def measure0 : String → ℚ := fun _ => 0

/-- C3, counterexample: on an 800×600 surface the box with
`box_2d = [100, 200, 300, 400]` is drawn as the rectangle with origin
(160, 60), width 160 and height 120 (scaleY = 600/1000 sends ymin = 100
to 60, not 80), and no rectangle with the claimed origin (160, 80) and
size 160×160 is drawn. -/
theorem box_c3_counterexample :
    drawAnn measure0 800 600 boxAnn100 =
      DrawOp.strokeRect 160 60 160 120 "#22c55e" ::
        drawLabel measure0 "" 160 50 "#22c55e" ∧
      DrawOp.strokeRect 160 80 160 160 "#22c55e" ∉
        drawAnn measure0 800 600 boxAnn100 := by
  have h := drawAnn_box_eq measure0 800 600 boxAnn100 100 200 300 400 rfl rfl
  constructor
  · rw [h]
    norm_num [boxAnn100]
  · rw [h]
    simp only [drawLabel, measure0, boxAnn100, List.mem_cons, List.mem_singleton,
      List.not_mem_nil]
    norm_num
    exact ⟨by simp, by simp⟩

/-- C3, amended: for a box annotation with `box_2d = [100, 200, 300, 400]`
rendered on an 800×600 surface, the mapped rectangle has origin (160, 60),
width 160 and height 120. -/
theorem box_c3_amended (m : String → ℚ) :
    drawAnn m 800 600 boxAnn100 =
      DrawOp.strokeRect 160 60 160 120 "#22c55e" ::
        drawLabel m "" 160 50 "#22c55e" := by
  have h := drawAnn_box_eq m 800 600 boxAnn100 100 200 300 400 rfl rfl
  rw [h]
  norm_num [boxAnn100]

/-- C2: an annotation whose type tag is not one of the four known tags, or
whose variant-required coordinate field is absent or of the wrong length,
produces zero drawing calls, and the render pass over a list containing it
equals the render pass over the same list with it removed — every other
annotation is still rendered in its array position.  The pass is a total
function, so no exception escapes it. -/
theorem malformed_annotation_skipped (m : String → ℚ) (w h : ℚ)
    (ann : Annotation) (l1 l2 : List Annotation)
    (hwf : wellFormed ann = false) :
    drawAnn m w h ann = [] ∧
      passOps m (some (l1 ++ ann :: l2)) w h =
        passOps m (some (l1 ++ l2)) w h := by
  have hnil := drawAnn_nil m w h ann hwf
  refine ⟨hnil, ?_⟩
  simp [passOps, hnil]

/-- An annotation with an unknown type tag, used as a concrete malformed
input. -/
def unknownAnn : Annotation := { type := "sparkle" }

theorem malformed_annotation_skipped_witness :
    drawAnn measure0 800 600 unknownAnn = [] ∧
      passOps measure0 (some [boxAnn100, unknownAnn]) 800 600 =
        passOps measure0 (some [boxAnn100]) 800 600 :=
  malformed_annotation_skipped measure0 800 600 unknownAnn [boxAnn100] []
    (by decide)

/-- C4: for a box or highlight annotation with
`box_2d = [ymin, xmin, ymax, xmax]`, the stroked rectangle has origin
(xmin·width/1000, ymin·height/1000), width (xmax−xmin)·width/1000 and
height (ymax−ymin)·height/1000.  The coordinates range over all
rationals: no hypothesis ymin ≤ ymax or xmin ≤ xmax is needed, a negative
computed width or height is passed to the rectangle call as-is, and the
(total) render function raises no error. -/
theorem box_rect_mapped (m : String → ℚ) (w h ymin xmin ymax xmax : ℚ)
    (ann : Annotation) (hty : ann.type = "box" ∨ ann.type = "highlight")
    (hb : ann.box_2d = some [ymin, xmin, ymax, xmax]) :
    DrawOp.strokeRect (xmin * w / 1000) (ymin * h / 1000)
        ((xmax - xmin) * w / 1000) ((ymax - ymin) * h / 1000)
        (annColor ann.type) ∈ drawAnn m w h ann := by
  simp only [mul_div_assoc]
  rcases hty with hty | hty
  · rw [drawAnn_box_eq m w h ann ymin xmin ymax xmax hty hb, hty, annColor_box]
    exact List.mem_cons_self _ _
  · rw [drawAnn_highlight_eq m w h ann ymin xmin ymax xmax hty hb, hty,
      annColor_highlight]
    exact List.mem_cons_of_mem _ (List.mem_cons_self _ _)

/-- A box annotation whose corners are given in the wrong order, so the
computed width and height are negative. -/
def flippedBoxAnn : Annotation :=
  { type := "box", box_2d := some [500, 600, 200, 100] }

theorem box_rect_mapped_witness :
    DrawOp.strokeRect (600 * 800 / 1000) (500 * 600 / 1000)
        ((100 - 600) * 800 / 1000) ((200 - 500) * 600 / 1000)
        (annColor "box") ∈ drawAnn measure0 800 600 flippedBoxAnn :=
  box_rect_mapped measure0 800 600 500 600 200 100 flippedBoxAnn
    (Or.inl rfl) rfl

/-- C5: a circle annotation with a length-2 center is stroked at center
(center₀·width/1000, center₁·height/1000), and its radius is the stored
radius when present and non-zero, else 50, scaled by the X-axis factor
width/1000 in both cases — even though the center's y uses height/1000.
In particular a circle with no radius field gets radius 50·(width/1000). -/
theorem circle_render (m : String → ℚ) (w h c0 c1 : ℚ) (ann : Annotation)
    (hty : ann.type = "circle") (hc : ann.center = some [c0, c1]) :
    (∀ rv : ℚ, ann.radius = some rv → rv ≠ 0 →
        DrawOp.strokeCircle (c0 * (w / 1000)) (c1 * (h / 1000))
          (rv * (w / 1000)) "#ef4444" ∈ drawAnn m w h ann) ∧
      (ann.radius = none ∨ ann.radius = some 0 →
        DrawOp.strokeCircle (c0 * (w / 1000)) (c1 * (h / 1000))
          (50 * (w / 1000)) "#ef4444" ∈ drawAnn m w h ann) := by
  have heq := drawAnn_circle_eq m w h ann c0 c1 hty hc
  constructor
  · intro rv hrv hne
    rw [heq, hrv]
    simp [hne]
  · rintro (hr | hr) <;> rw [heq, hr] <;> simp

/-- A circle annotation with no radius field. -/
def circleAnnNoRadius : Annotation :=
  { type := "circle", center := some [300, 400] }

theorem circle_render_witness :
    DrawOp.strokeCircle (300 * (800 / 1000)) (400 * (600 / 1000))
        (50 * (800 / 1000)) "#ef4444" ∈
      drawAnn measure0 800 600 circleAnnNoRadius :=
  (circle_render measure0 800 600 300 400 circleAnnNoRadius rfl rfl).2
    (Or.inl rfl)

/-- The first arrowhead wing of AnnotationCanvas.tsx line 118: step back
`headLength = 15` from the end point at angle `angle - π/6`. -/
noncomputable def wingMinus (x1 y1 x2 y2 : ℝ) : ℝ × ℝ :=
  (x2 - 15 * Real.cos (atan2 (y2 - y1) (x2 - x1) - Real.pi / 6),
    y2 - 15 * Real.sin (atan2 (y2 - y1) (x2 - x1) - Real.pi / 6))

/-- The second arrowhead wing of AnnotationCanvas.tsx line 119: step back
`headLength = 15` from the end point at angle `angle + π/6`. -/
noncomputable def wingPlus (x1 y1 x2 y2 : ℝ) : ℝ × ℝ :=
  (x2 - 15 * Real.cos (atan2 (y2 - y1) (x2 - x1) + Real.pi / 6),
    y2 - 15 * Real.sin (atan2 (y2 - y1) (x2 - x1) + Real.pi / 6))

lemma drawArrow_eq (x1 y1 x2 y2 : ℚ) (color : String) :
    drawArrow x1 y1 x2 y2 color =
      [DrawOp.strokeLine x1 y1 x2 y2 color,
        DrawOp.fillTriangle ((x2 : ℝ), (y2 : ℝ))
          (wingMinus (x1 : ℝ) (y1 : ℝ) (x2 : ℝ) (y2 : ℝ))
          (wingPlus (x1 : ℝ) (y1 : ℝ) (x2 : ℝ) (y2 : ℝ)) color] :=
  rfl

lemma atan2_zero_pos (x : ℝ) (hx : 0 < x) : atan2 0 x = 0 := by
  unfold atan2
  rw [if_pos hx]
  simp

lemma wingMinus_dist (x1 y1 x2 y2 : ℝ) :
    ((wingMinus x1 y1 x2 y2).1 - x2) ^ 2 + ((wingMinus x1 y1 x2 y2).2 - y2) ^ 2 =
      15 ^ 2 := by
  unfold wingMinus
  have h := Real.sin_sq_add_cos_sq (atan2 (y2 - y1) (x2 - x1) - Real.pi / 6)
  dsimp only
  linear_combination (225 : ℝ) * h

lemma wingPlus_dist (x1 y1 x2 y2 : ℝ) :
    ((wingPlus x1 y1 x2 y2).1 - x2) ^ 2 + ((wingPlus x1 y1 x2 y2).2 - y2) ^ 2 =
      15 ^ 2 := by
  unfold wingPlus
  have h := Real.sin_sq_add_cos_sq (atan2 (y2 - y1) (x2 - x1) + Real.pi / 6)
  dsimp only
  linear_combination (225 : ℝ) * h

lemma wingMinus_horiz (w : ℝ) (hw : 0 < w) :
    wingMinus 0 0 w 0 = (w - 15 * (Real.sqrt 3 / 2), 15 / 2) := by
  unfold wingMinus
  rw [sub_zero, sub_zero, atan2_zero_pos w hw, zero_sub, Real.cos_neg,
    Real.sin_neg, Real.cos_pi_div_six, Real.sin_pi_div_six]
  norm_num

lemma wingPlus_horiz (w : ℝ) (hw : 0 < w) :
    wingPlus 0 0 w 0 = (w - 15 * (Real.sqrt 3 / 2), -(15 / 2)) := by
  unfold wingPlus
  rw [sub_zero, sub_zero, atan2_zero_pos w hw, zero_add, Real.cos_pi_div_six,
    Real.sin_pi_div_six]
  norm_num

/-- An arrow annotation from (0,0) to (1000,0). -/
def horizArrowAnn (lbl : String) : Annotation :=
  { type := "arrow", start := some [0, 0], «end» := some [1000, 0],
    label := lbl }

/-- C6: for an arrow annotation with length-2 start and end, the render
pass draws the stroked line from the mapped start to the mapped end, then
a filled triangle whose vertices are the mapped end point and the two
wing points stepped back 15 units from the end at angles ±π/6 (±30°) from
the direction angle `atan2(y2-y1, x2-x1)`; both wings are at distance 15
from the end point.  For an arrow from (0,0) to (1000,0) on a viewport of
positive width the line is horizontal from x = 0 to x = w (the full
mapped width) and the two wings are symmetric about the line. -/
theorem arrow_render (m : String → ℚ) (w h sx sy ex ey : ℚ)
    (ann : Annotation) (hty : ann.type = "arrow")
    (hs : ann.start = some [sx, sy]) (he : ann.«end» = some [ex, ey]) :
    drawAnn m w h ann =
      DrawOp.strokeLine (sx * (w / 1000)) (sy * (h / 1000)) (ex * (w / 1000))
          (ey * (h / 1000)) "#eab308" ::
        DrawOp.fillTriangle ((ex * (w / 1000) : ℚ), (ey * (h / 1000) : ℚ))
          (wingMinus (sx * (w / 1000) : ℚ) (sy * (h / 1000) : ℚ)
            (ex * (w / 1000) : ℚ) (ey * (h / 1000) : ℚ))
          (wingPlus (sx * (w / 1000) : ℚ) (sy * (h / 1000) : ℚ)
            (ex * (w / 1000) : ℚ) (ey * (h / 1000) : ℚ)) "#eab308" ::
        drawLabel m ann.label (sx * (w / 1000)) (sy * (h / 1000) - 20)
          "#eab308" ∧
      ((wingMinus (sx * (w / 1000) : ℚ) (sy * (h / 1000) : ℚ)
            (ex * (w / 1000) : ℚ) (ey * (h / 1000) : ℚ)).1 -
          (ex * (w / 1000) : ℚ)) ^ 2 +
        ((wingMinus (sx * (w / 1000) : ℚ) (sy * (h / 1000) : ℚ)
            (ex * (w / 1000) : ℚ) (ey * (h / 1000) : ℚ)).2 -
          (ey * (h / 1000) : ℚ)) ^ 2 = 15 ^ 2 ∧
      ((wingPlus (sx * (w / 1000) : ℚ) (sy * (h / 1000) : ℚ)
            (ex * (w / 1000) : ℚ) (ey * (h / 1000) : ℚ)).1 -
          (ex * (w / 1000) : ℚ)) ^ 2 +
        ((wingPlus (sx * (w / 1000) : ℚ) (sy * (h / 1000) : ℚ)
            (ex * (w / 1000) : ℚ) (ey * (h / 1000) : ℚ)).2 -
          (ey * (h / 1000) : ℚ)) ^ 2 = 15 ^ 2 ∧
      (sx = 0 → sy = 0 → ex = 1000 → ey = 0 → 0 < w →
        drawAnn m w h ann =
          DrawOp.strokeLine 0 0 w 0 "#eab308" ::
            DrawOp.fillTriangle ((w : ℚ), (0 : ℚ))
              ((w : ℚ) - 15 * (Real.sqrt 3 / 2), 15 / 2)
              ((w : ℚ) - 15 * (Real.sqrt 3 / 2), -(15 / 2)) "#eab308" ::
            drawLabel m ann.label 0 (0 - 20) "#eab308") := by
  refine ⟨?_, wingMinus_dist _ _ _ _, wingPlus_dist _ _ _ _, ?_⟩
  · rw [drawAnn_arrow_eq m w h ann sx sy ex ey hty hs he, drawArrow_eq]
    rfl
  · intro h0 h1 h2 h3 hw
    subst h0
    subst h1
    subst h2
    subst h3
    rw [drawAnn_arrow_eq m w h ann 0 0 1000 0 hty hs he, drawArrow_eq]
    have e1 : (0 : ℚ) * (w / 1000) = 0 := by ring
    have e2 : (0 : ℚ) * (h / 1000) = 0 := by ring
    have e3 : (1000 : ℚ) * (w / 1000) = w := by field_simp
    rw [e1, e2, e3]
    have hwR : (0 : ℝ) < (w : ℚ) := by exact_mod_cast hw
    push_cast
    rw [wingMinus_horiz _ hwR, wingPlus_horiz _ hwR]
    norm_num

theorem arrow_render_witness :
    drawAnn measure0 800 600 (horizArrowAnn "pull") =
      DrawOp.strokeLine 0 0 800 0 "#eab308" ::
        DrawOp.fillTriangle (((800 : ℚ) : ℝ), ((0 : ℚ) : ℝ))
          (((800 : ℚ) : ℝ) - 15 * (Real.sqrt 3 / 2), 15 / 2)
          (((800 : ℚ) : ℝ) - 15 * (Real.sqrt 3 / 2), -(15 / 2)) "#eab308" ::
        drawLabel measure0 "pull" 0 (0 - 20) "#eab308" :=
  (arrow_render measure0 800 600 0 0 1000 0 (horizArrowAnn "pull") rfl rfl
      rfl).2.2.2 rfl rfl rfl rfl (by decide)

/-- C7: for a highlight annotation the mapped rectangle is first filled
with the translucent color "#f97316" ++ "40" (the type color with alpha
suffix 40) and then stroked on top; for a box annotation the same
rectangle is stroked only, and the only fill calls it issues are the dark
label backing "rgba(0,0,0,0.8)" — the box rectangle itself is never
filled. -/
theorem highlight_filled_box_stroked (m : String → ℚ)
    (w h ymin xmin ymax xmax : ℚ) (ann : Annotation)
    (hb : ann.box_2d = some [ymin, xmin, ymax, xmax]) :
    (ann.type = "highlight" →
      drawAnn m w h ann =
        DrawOp.fillRect (xmin * (w / 1000)) (ymin * (h / 1000))
            ((xmax - xmin) * (w / 1000)) ((ymax - ymin) * (h / 1000))
            ("#f97316" ++ "40") ::
          DrawOp.strokeRect (xmin * (w / 1000)) (ymin * (h / 1000))
            ((xmax - xmin) * (w / 1000)) ((ymax - ymin) * (h / 1000))
            "#f97316" ::
          drawLabel m ann.label (xmin * (w / 1000)) (ymin * (h / 1000) - 10)
            "#f97316") ∧
      (ann.type = "box" →
        drawAnn m w h ann =
          DrawOp.strokeRect (xmin * (w / 1000)) (ymin * (h / 1000))
              ((xmax - xmin) * (w / 1000)) ((ymax - ymin) * (h / 1000))
              "#22c55e" ::
            drawLabel m ann.label (xmin * (w / 1000))
              (ymin * (h / 1000) - 10) "#22c55e" ∧
          ∀ fx fy fw fh fc, DrawOp.fillRect fx fy fw fh fc ∈ drawAnn m w h ann →
            fc = "rgba(0,0,0,0.8)") := by
  constructor
  · intro hty
    exact drawAnn_highlight_eq m w h ann ymin xmin ymax xmax hty hb
  · intro hty
    have heq := drawAnn_box_eq m w h ann ymin xmin ymax xmax hty hb
    refine ⟨heq, ?_⟩
    intro fx fy fw fh fc hmem
    rw [heq] at hmem
    simp only [drawLabel, List.mem_cons, List.mem_singleton,
      List.not_mem_nil, or_false] at hmem
    rcases hmem with hmem | hmem | hmem
    · exact absurd hmem (by simp)
    · exact (DrawOp.fillRect.injEq _ _ _ _ _ _ _ _ _ _).mp hmem |>.2.2.2.2
    · exact absurd hmem (by simp)

/-- A highlight annotation over the same box as `boxAnn100`. -/
def highlightAnn100 : Annotation :=
  { type := "highlight", box_2d := some [100, 200, 300, 400] }

theorem highlight_filled_box_stroked_witness :
    drawAnn measure0 800 600 highlightAnn100 =
      DrawOp.fillRect (200 * (800 / 1000)) (100 * (600 / 1000))
          ((400 - 200) * (800 / 1000)) ((300 - 100) * (600 / 1000))
          ("#f97316" ++ "40") ::
        DrawOp.strokeRect (200 * (800 / 1000)) (100 * (600 / 1000))
          ((400 - 200) * (800 / 1000)) ((300 - 100) * (600 / 1000))
          "#f97316" ::
        drawLabel measure0 "" (200 * (800 / 1000)) (100 * (600 / 1000) - 10)
          "#f97316" ∧
      (drawAnn measure0 800 600 boxAnn100 =
        DrawOp.strokeRect (200 * (800 / 1000)) (100 * (600 / 1000))
            ((400 - 200) * (800 / 1000)) ((300 - 100) * (600 / 1000))
            "#22c55e" ::
          drawLabel measure0 "" (200 * (800 / 1000)) (100 * (600 / 1000) - 10)
            "#22c55e" ∧
        ∀ fx fy fw fh fc,
          DrawOp.fillRect fx fy fw fh fc ∈ drawAnn measure0 800 600 boxAnn100 →
            fc = "rgba(0,0,0,0.8)") :=
  ⟨(highlight_filled_box_stroked measure0 800 600 100 200 300 400
      highlightAnn100 rfl).1 rfl,
    (highlight_filled_box_stroked measure0 800 600 100 200 300 400
      boxAnn100 rfl).2 rfl⟩

/-- C8, counterexample: with a text metric that measures the empty string
at width 0, the backing plate drawn for an empty-string label has width
0 + 12 = 12 (the two 6-unit pads), not width 0 — no zero-width backing
rectangle is drawn. -/
theorem label_zero_width_counterexample :
    drawLabel measure0 "" 160 50 "#22c55e" =
      [DrawOp.fillRect 154 30 12 24 "rgba(0,0,0,0.8)",
        DrawOp.fillText "" 160 50 "#22c55e"] ∧
      DrawOp.fillRect 154 30 0 24 "rgba(0,0,0,0.8)" ∉
        drawLabel measure0 "" 160 50 "#22c55e" := by
  constructor
  · norm_num [drawLabel, measure0]
  · simp only [drawLabel, measure0, List.mem_cons, List.not_mem_nil, or_false]
    norm_num
    simp

/-- C8, amended: whenever a shape is drawn, `drawLabel` first draws the
dark backing rectangle "rgba(0,0,0,0.8)" at (anchorX − 6, anchorY − 20)
with width = measured text width + 12 and height 24, then the label text
in the annotation's type color at the anchor.  The anchor is
(x, y − 10) for box/highlight, (cx − 20, cy − r − 10) for circle and
(x1, y1 − 20) for arrow.  An empty-string label still draws a backing
plate; when the metric measures the empty string at 0 the plate has
width 12 (the two 6-unit pads), not width 0. -/
theorem label_render_amended (m : String → ℚ) (w h x y : ℚ) (text : String)
    (color : String) (ann : Annotation) :
    drawLabel m text x y color =
      [DrawOp.fillRect (x - 6) (y - 20) (m text + 12) 24 "rgba(0,0,0,0.8)",
        DrawOp.fillText text x y color] ∧
      (m "" = 0 →
        drawLabel m "" x y color =
          [DrawOp.fillRect (x - 6) (y - 20) 12 24 "rgba(0,0,0,0.8)",
            DrawOp.fillText "" x y color]) ∧
      (∀ ymin xmin ymax xmax : ℚ,
        ann.type = "box" ∨ ann.type = "highlight" →
        ann.box_2d = some [ymin, xmin, ymax, xmax] →
        drawLabel m ann.label (xmin * (w / 1000)) (ymin * (h / 1000) - 10)
            (annColor ann.type) <:+ drawAnn m w h ann) ∧
      (∀ c0 c1 : ℚ, ann.type = "circle" → ann.center = some [c0, c1] →
        drawLabel m ann.label (c0 * (w / 1000) - 20)
            (c1 * (h / 1000) -
              (match ann.radius with
                | some rv => if rv = 0 then 50 else rv
                | none => 50) * (w / 1000) - 10) "#ef4444" <:+
          drawAnn m w h ann) ∧
      (∀ sx sy ex ey : ℚ, ann.type = "arrow" → ann.start = some [sx, sy] →
        ann.«end» = some [ex, ey] →
        drawLabel m ann.label (sx * (w / 1000)) (sy * (h / 1000) - 20)
            "#eab308" <:+ drawAnn m w h ann) := by
  have hbase : ∀ t xx yy cc, drawLabel m t xx yy cc =
      [DrawOp.fillRect (xx - 6) (yy - 20) (m t + 12) 24 "rgba(0,0,0,0.8)",
        DrawOp.fillText t xx yy cc] := by
    intro t xx yy cc
    unfold drawLabel
    norm_num
    ring
  refine ⟨hbase text x y color, ?_, ?_, ?_, ?_⟩
  · intro h0
    rw [hbase "" x y color, h0]
    norm_num
  · intro ymin xmin ymax xmax hty hb
    rcases hty with hty | hty
    · rw [hty, annColor_box, drawAnn_box_eq m w h ann ymin xmin ymax xmax hty hb]
      exact List.suffix_cons _ _
    · rw [hty, annColor_highlight,
        drawAnn_highlight_eq m w h ann ymin xmin ymax xmax hty hb]
      exact (List.suffix_cons _ _).trans (List.suffix_cons _ _)
  · intro c0 c1 hty hc
    rw [drawAnn_circle_eq m w h ann c0 c1 hty hc]
    exact List.suffix_cons _ _
  · intro sx sy ex ey hty hs he
    rw [drawAnn_arrow_eq m w h ann sx sy ex ey hty hs he]
    exact List.suffix_append _ _

theorem label_render_amended_witness :
    drawLabel measure0 "hi" 5 7 "#fff" =
      [DrawOp.fillRect (5 - 6) (7 - 20) (measure0 "hi" + 12) 24
          "rgba(0,0,0,0.8)",
        DrawOp.fillText "hi" 5 7 "#fff"] ∧
      drawLabel measure0 "" 5 7 "#fff" =
        [DrawOp.fillRect (5 - 6) (7 - 20) 12 24 "rgba(0,0,0,0.8)",
          DrawOp.fillText "" 5 7 "#fff"] ∧
      drawLabel measure0 "" (200 * (800 / 1000)) (100 * (600 / 1000) - 10)
          (annColor "box") <:+ drawAnn measure0 800 600 boxAnn100 ∧
      drawLabel measure0 "" (300 * (800 / 1000) - 20)
          (400 * (600 / 1000) - 50 * (800 / 1000) - 10) "#ef4444" <:+
        drawAnn measure0 800 600 circleAnnNoRadius ∧
      drawLabel measure0 "pull" (0 * (800 / 1000)) (0 * (600 / 1000) - 20)
          "#eab308" <:+ drawAnn measure0 800 600 (horizArrowAnn "pull") :=
  ⟨(label_render_amended measure0 800 600 5 7 "hi" "#fff" boxAnn100).1,
    (label_render_amended measure0 800 600 5 7 "hi" "#fff" boxAnn100).2.1 rfl,
    (label_render_amended measure0 800 600 5 7 "hi" "#fff" boxAnn100).2.2.1
      100 200 300 400 (Or.inl rfl) rfl,
    (label_render_amended measure0 800 600 5 7 "hi" "#fff"
      circleAnnNoRadius).2.2.2.1 300 400 rfl rfl,
    (label_render_amended measure0 800 600 5 7 "hi" "#fff"
      (horizArrowAnn "pull")).2.2.2.2 0 0 1000 0 rfl rfl rfl⟩

/-- C9: the render pass is idempotent.  Its drawing calls depend only on
the inputs, and the pass opens with `clearRect 0 0 width height`; for any
surface semantics in which that full-surface clear erases the prior state
(`hclear`), running the pass twice from any starting surface ends in the
same state as running it once. -/
theorem render_pass_idempotent {Surface : Type}
    (paint : Surface → DrawOp → Surface) (m : String → ℚ)
    (anns : Option (List Annotation)) (w h : ℚ) (s : Surface)
    (hclear : ∀ s1 s2 : Surface,
      paint s1 (DrawOp.clearRect 0 0 w h) = paint s2 (DrawOp.clearRect 0 0 w h)) :
    renderPass paint m anns w h (renderPass paint m anns w h s) =
      renderPass paint m anns w h s := by
  have key : ∀ (rest : List DrawOp) (s1 s2 : Surface),
      List.foldl paint (paint s1 (DrawOp.clearRect 0 0 w h)) rest =
        List.foldl paint (paint s2 (DrawOp.clearRect 0 0 w h)) rest := by
    intro rest s1 s2
    rw [hclear s1 s2]
  unfold renderPass
  simp only [passOps, List.foldl_cons]
  exact key _ _ _

/-- A concrete surface semantics: the trace of drawing calls since the
last clear; any `clearRect` resets the trace. -/
def paintTrace : List DrawOp → DrawOp → List DrawOp := fun s op =>
  match op with
  | DrawOp.clearRect _ _ _ _ => [op]
  | _ => op :: s

theorem render_pass_idempotent_witness :
    renderPass paintTrace measure0 (some [boxAnn100]) 800 600
        (renderPass paintTrace measure0 (some [boxAnn100]) 800 600 []) =
      renderPass paintTrace measure0 (some [boxAnn100]) 800 600 [] :=
  render_pass_idempotent paintTrace measure0 (some [boxAnn100]) 800 600 []
    (fun _ _ => rfl)

/-! ### The sanitization step of `analyzeImage` (geminiService.ts) -/

/-- A JSON value as produced by `JSON.parse`, plus `undef` for the result
of reading an absent property. -/
inductive Json where
  | undef
  | null
  | bool (b : Bool)
  | num (q : ℚ)
  | str (s : String)
  | arr (l : List Json)
  | obj (fields : List (String × Json))

/-- JavaScript truthiness of a JSON value (`undefined`, `null`, `false`,
`0` and `""` are falsy; every array and object is truthy). -/
def jsTruthy : Json → Bool
  | Json.undef => false
  | Json.null => false
  | Json.bool b => b
  | Json.num q => decide (q ≠ 0)
  | Json.str s => decide (s ≠ "")
  | Json.arr _ => true
  | Json.obj _ => true

/-- Property read `v[k]` on a JSON value: a field lookup on an object,
`undefined` on any other non-nullish value. -/
def jsGet : Json → String → Json
  | Json.obj fields, k =>
    (((fields.find? fun p => p.1 == k).map Prod.snd).getD Json.undef)
  | _, _ => Json.undef

/-- `a || b` of JavaScript: `a` when truthy, else `b`. -/
def jsOr (a b : Json) : Json :=
  if jsTruthy a then a else b

/-- `Array.isArray`. -/
def isArray : Json → Bool
  | Json.arr _ => true
  | _ => false

/-- `Array.isArray(x) ? x : []` of geminiService.ts lines 122-126. -/
def arrOrEmpty (j : Json) : Json :=
  if isArray j then j else Json.arr []

/-- The value is `null` or `undefined`, on which a property read throws a
TypeError. -/
def isNullish : Json → Bool
  | Json.null => true
  | Json.undef => true
  | _ => false

/-- The object built by the `return { ... }` of geminiService.ts lines
118-130, field by field. -/
structure SanitizedResponse where
  object_detected : Json
  issue_detected : Json
  confidence : Json
  safety_warnings : Json
  tools_required : Json
  household_tool_alternatives : Json
  steps : Json
  annotations : Json
  camera_guidance : Json
  cause_explanation : Json
  prevention_tips : Json

/-- The sanitization of `analyzeImage` applied to the value `parsed`
returned by `JSON.parse(response.text)`: string-ish fields fall back to a
fixed default when falsy, array fields are replaced by `[]` when not
arrays.  `none` models the TypeError thrown (and re-thrown by the catch
block) when `parsed` is nullish, so the promise rejects instead of
resolving. -/
def sanitize (parsed : Json) : Option SanitizedResponse :=
  if isNullish parsed then none
  else some
    { object_detected := jsOr (jsGet parsed "object_detected")
        (Json.str "Unknown Object")
      issue_detected := jsOr (jsGet parsed "issue_detected")
        (Json.str "Analysis Pending")
      confidence := jsOr (jsGet parsed "confidence") (Json.str "Unknown")
      safety_warnings := arrOrEmpty (jsGet parsed "safety_warnings")
      tools_required := arrOrEmpty (jsGet parsed "tools_required")
      household_tool_alternatives :=
        arrOrEmpty (jsGet parsed "household_tool_alternatives")
      steps := arrOrEmpty (jsGet parsed "steps")
      annotations := arrOrEmpty (jsGet parsed "annotations")
      camera_guidance := jsOr (jsGet parsed "camera_guidance")
        (Json.str "None")
      cause_explanation := jsOr (jsGet parsed "cause_explanation")
        (Json.str "No explanation provided.")
      prevention_tips := jsOr (jsGet parsed "prevention_tips")
        (Json.str "No specific tips.") }

/-- The value is a non-empty string. -/
def nonEmptyStr : Json → Bool
  | Json.str s => decide (s ≠ "")
  | _ => false

/-- The value is a string, or is falsy (so that `jsOr` replaces it). -/
def strOrFalsy : Json → Bool
  | Json.str _ => true
  | j => !jsTruthy j

/-- The defensive entry check of AnnotationCanvas.tsx line 33 passes:
`annotations` is truthy and `Array.isArray(annotations)` holds. -/
def arrayCheckPasses (j : Json) : Bool :=
  jsTruthy j && isArray j

lemma arrOrEmpty_isArray (j : Json) : isArray (arrOrEmpty j) = true := by
  unfold arrOrEmpty
  by_cases hj : isArray j = true
  · rw [if_pos hj]
    exact hj
  · rw [if_neg (by simp_all)]
    rfl

lemma arrOrEmpty_default (j : Json) (h : isArray j = false) :
    arrOrEmpty j = Json.arr [] := by
  unfold arrOrEmpty
  rw [h]
  rfl

lemma arrOrEmpty_check (j : Json) : arrayCheckPasses (arrOrEmpty j) = true := by
  unfold arrOrEmpty
  by_cases hj : isArray j = true
  · rw [if_pos hj]
    cases j <;> simp_all [arrayCheckPasses, jsTruthy, isArray]
  · rw [if_neg (by simp_all)]
    rfl

lemma jsOr_nonEmptyStr (a b : Json) (ha : strOrFalsy a = true)
    (hb : nonEmptyStr b = true) : nonEmptyStr (jsOr a b) = true := by
  unfold jsOr
  by_cases ht : jsTruthy a = true
  · rw [if_pos ht]
    cases a <;> simp_all [strOrFalsy, jsTruthy, nonEmptyStr]
  · rw [if_neg (by simp_all)]
    exact hb

/-- A parsed response whose `object_detected` is the (truthy) number 42. -/
def parsedBad : Json := Json.obj [("object_detected", Json.num 42)]

/-- C10, counterexample: when `JSON.parse` yields
`{"object_detected": 42}`, `analyzeImage` resolves (no throw), but the
returned `object_detected` is the number 42 — a truthy non-string passes
through `parsed.object_detected || "Unknown Object"` unchanged, so the
field is not a non-empty string as claimed. -/
theorem analyze_sanitize_counterexample :
    sanitize parsedBad =
      some
        { object_detected := Json.num 42
          issue_detected := Json.str "Analysis Pending"
          confidence := Json.str "Unknown"
          safety_warnings := Json.arr []
          tools_required := Json.arr []
          household_tool_alternatives := Json.arr []
          steps := Json.arr []
          annotations := Json.arr []
          camera_guidance := Json.str "None"
          cause_explanation := Json.str "No explanation provided."
          prevention_tips := Json.str "No specific tips." } ∧
      nonEmptyStr (Json.num 42) = false :=
  ⟨rfl, rfl⟩

/-- C10, amended: whenever `analyzeImage` resolves, each of the five
array fields of the result is an array (and equals `[]` whenever the
parsed value was not an array), each of the six text fields is a
non-empty string provided the parsed value was a string or falsy (a
truthy non-string — possible, since nothing forces the model's JSON to
use strings — passes through unchanged), and the annotations field always
passes the Annotation Layer's defensive entry check, making its
not-an-array branch unreachable for lists produced by `analyzeImage`. -/
theorem analyzeImage_sanitized (parsed : Json) (d : SanitizedResponse)
    (hd : sanitize parsed = some d) :
    (isArray d.safety_warnings = true ∧
        (isArray (jsGet parsed "safety_warnings") = false →
          d.safety_warnings = Json.arr [])) ∧
      (isArray d.tools_required = true ∧
        (isArray (jsGet parsed "tools_required") = false →
          d.tools_required = Json.arr [])) ∧
      (isArray d.household_tool_alternatives = true ∧
        (isArray (jsGet parsed "household_tool_alternatives") = false →
          d.household_tool_alternatives = Json.arr [])) ∧
      (isArray d.steps = true ∧
        (isArray (jsGet parsed "steps") = false → d.steps = Json.arr [])) ∧
      (isArray d.annotations = true ∧
        (isArray (jsGet parsed "annotations") = false →
          d.annotations = Json.arr [])) ∧
      (strOrFalsy (jsGet parsed "object_detected") = true →
        nonEmptyStr d.object_detected = true) ∧
      (strOrFalsy (jsGet parsed "issue_detected") = true →
        nonEmptyStr d.issue_detected = true) ∧
      (strOrFalsy (jsGet parsed "confidence") = true →
        nonEmptyStr d.confidence = true) ∧
      (strOrFalsy (jsGet parsed "camera_guidance") = true →
        nonEmptyStr d.camera_guidance = true) ∧
      (strOrFalsy (jsGet parsed "cause_explanation") = true →
        nonEmptyStr d.cause_explanation = true) ∧
      (strOrFalsy (jsGet parsed "prevention_tips") = true →
        nonEmptyStr d.prevention_tips = true) ∧
      arrayCheckPasses d.annotations = true := by
  unfold sanitize at hd
  by_cases hn : isNullish parsed
  · rw [if_pos hn] at hd
    exact absurd hd (by simp)
  · rw [if_neg hn] at hd
    have hda := Option.some.inj hd
    subst hda
    exact ⟨⟨arrOrEmpty_isArray _, arrOrEmpty_default _⟩,
      ⟨arrOrEmpty_isArray _, arrOrEmpty_default _⟩,
      ⟨arrOrEmpty_isArray _, arrOrEmpty_default _⟩,
      ⟨arrOrEmpty_isArray _, arrOrEmpty_default _⟩,
      ⟨arrOrEmpty_isArray _, arrOrEmpty_default _⟩,
      fun h => jsOr_nonEmptyStr _ _ h rfl,
      fun h => jsOr_nonEmptyStr _ _ h rfl,
      fun h => jsOr_nonEmptyStr _ _ h rfl,
      fun h => jsOr_nonEmptyStr _ _ h rfl,
      fun h => jsOr_nonEmptyStr _ _ h rfl,
      fun h => jsOr_nonEmptyStr _ _ h rfl,
      arrOrEmpty_check _⟩

/-- A well-behaved parsed response. -/
def parsedGood : Json :=
  Json.obj [("object_detected", Json.str "Lamp"),
    ("steps", Json.arr [Json.str "unplug it"]),
    ("annotations", Json.arr [])]

/-- The sanitized form of `parsedGood`. -/
def sanitizedGood : SanitizedResponse :=
  { object_detected := Json.str "Lamp"
    issue_detected := Json.str "Analysis Pending"
    confidence := Json.str "Unknown"
    safety_warnings := Json.arr []
    tools_required := Json.arr []
    household_tool_alternatives := Json.arr []
    steps := Json.arr [Json.str "unplug it"]
    annotations := Json.arr []
    camera_guidance := Json.str "None"
    cause_explanation := Json.str "No explanation provided."
    prevention_tips := Json.str "No specific tips." }

theorem analyzeImage_sanitized_witness :
    (isArray sanitizedGood.safety_warnings = true ∧
        (isArray (jsGet parsedGood "safety_warnings") = false →
          sanitizedGood.safety_warnings = Json.arr [])) ∧
      (isArray sanitizedGood.tools_required = true ∧
        (isArray (jsGet parsedGood "tools_required") = false →
          sanitizedGood.tools_required = Json.arr [])) ∧
      (isArray sanitizedGood.household_tool_alternatives = true ∧
        (isArray (jsGet parsedGood "household_tool_alternatives") = false →
          sanitizedGood.household_tool_alternatives = Json.arr [])) ∧
      (isArray sanitizedGood.steps = true ∧
        (isArray (jsGet parsedGood "steps") = false →
          sanitizedGood.steps = Json.arr [])) ∧
      (isArray sanitizedGood.annotations = true ∧
        (isArray (jsGet parsedGood "annotations") = false →
          sanitizedGood.annotations = Json.arr [])) ∧
      (strOrFalsy (jsGet parsedGood "object_detected") = true →
        nonEmptyStr sanitizedGood.object_detected = true) ∧
      (strOrFalsy (jsGet parsedGood "issue_detected") = true →
        nonEmptyStr sanitizedGood.issue_detected = true) ∧
      (strOrFalsy (jsGet parsedGood "confidence") = true →
        nonEmptyStr sanitizedGood.confidence = true) ∧
      (strOrFalsy (jsGet parsedGood "camera_guidance") = true →
        nonEmptyStr sanitizedGood.camera_guidance = true) ∧
      (strOrFalsy (jsGet parsedGood "cause_explanation") = true →
        nonEmptyStr sanitizedGood.cause_explanation = true) ∧
      (strOrFalsy (jsGet parsedGood "prevention_tips") = true →
        nonEmptyStr sanitizedGood.prevention_tips = true) ∧
      arrayCheckPasses sanitizedGood.annotations = true :=
  analyzeImage_sanitized parsedGood sanitizedGood rfl
